import Mathlib

/-!
Verification of the 2FA companion web application (app.py, config.py, tts.py)
against its specification.  The development embeds, from the source:

* the TOTP engine the app reaches through pyotp (base32 decoding, HMAC-SHA1,
  dynamic truncation, the 30-second timecode, and `TOTP.verify` with the
  default `valid_window=0`);
* the route handlers of app.py (`register`, `login`, `verify`, `dashboard`,
  `add_token`, `delete_token`, `import_token`, `export_tokens`) as pure
  functions over an explicit store and session state, with the external
  collaborators (bcrypt, the random source, the speech engine, the JSON
  parser) passed in as explicit inputs or outcomes;
* the startup checks of config.py and the secret-key line of app.py.
-/

set_option maxRecDepth 1000000
set_option maxHeartbeats 4000000

namespace TwoFA

/-! ## TOTP engine (pyotp as called by app.py: SHA-1, 6 digits, 30 s step) -/

/-- Truncate a natural number to 32 bits. -/
def w32 (n : Nat) : Nat := n % 4294967296

/-- Rotate a 32-bit word left by `b` bits (for `n < 2^32`, `b ≤ 32`). -/
def rotl (n b : Nat) : Nat := ((n <<< b) % 4294967296) ||| (n >>> (32 - b))

/-- Big-endian 8-byte encoding of a natural number (low 64 bits); this is
pyotp `int_to_bytestring` padded to 8 bytes. -/
def beBytes8 (n : Nat) : List Nat :=
  [(n >>> 56) % 256, (n >>> 48) % 256, (n >>> 40) % 256, (n >>> 32) % 256,
   (n >>> 24) % 256, (n >>> 16) % 256, (n >>> 8) % 256, n % 256]

/-- SHA-1 round function. -/
def sha1F (i b c d : Nat) : Nat :=
  if i < 20 then (b &&& c) ||| ((b ^^^ 4294967295) &&& d)
  else if i < 40 then b ^^^ c ^^^ d
  else if i < 60 then (b &&& c) ||| (b &&& d) ||| (c &&& d)
  else b ^^^ c ^^^ d

/-- SHA-1 round constants. -/
def sha1K (i : Nat) : Nat :=
  if i < 20 then 1518500249 else if i < 40 then 1859775393
  else if i < 60 then 2400959708 else 3395469782

/-- Group bytes into big-endian 32-bit words. -/
def bytesToWords : List Nat → List Nat
  | b0 :: b1 :: b2 :: b3 :: rest =>
    (b0 * 16777216 + b1 * 65536 + b2 * 256 + b3) :: bytesToWords rest
  | _ => []

/-- Extend the message schedule: each new word is the rotation of the words
3, 8, 14 and 16 places back; the argument carries the most recent 16 words,
oldest first, so those taps sit at positions 13, 8, 2 and 0. -/
def sha1Extend : Nat → List Nat → List Nat
  | 0, _ => []
  | f+1, window =>
    let nw := rotl (window.getD 0 0 ^^^ window.getD 2 0 ^^^
                    window.getD 8 0 ^^^ window.getD 13 0) 1
    nw :: sha1Extend f (window.drop 1 ++ [nw])

/-- The 80 SHA-1 rounds, driven by the schedule words. -/
def sha1Rounds : Nat → List Nat → Nat × Nat × Nat × Nat × Nat → Nat × Nat × Nat × Nat × Nat
  | _, [], s => s
  | i, wi :: ws, (a, b, c, d, e) =>
    sha1Rounds (i+1) ws
      (w32 (rotl a 5 + sha1F i b c d + e + sha1K i + wi), a, rotl b 30, c, d)

/-- One SHA-1 compression step over a 64-byte chunk. -/
def sha1Compress (h : List Nat) (chunk : List Nat) : List Nat :=
  let w16 := bytesToWords chunk
  let w := w16 ++ sha1Extend 64 w16
  let s := sha1Rounds 0 w (h.getD 0 0, h.getD 1 0, h.getD 2 0, h.getD 3 0, h.getD 4 0)
  [w32 (h.getD 0 0 + s.1), w32 (h.getD 1 0 + s.2.1), w32 (h.getD 2 0 + s.2.2.1),
   w32 (h.getD 3 0 + s.2.2.2.1), w32 (h.getD 4 0 + s.2.2.2.2)]

/-- Merkle-Damgard padding for SHA-1: append 0x80, zeros, and the 64-bit
bit length, reaching a multiple of 64 bytes. -/
def sha1Pad (msg : List Nat) : List Nat :=
  msg ++ [128] ++ List.replicate ((119 - msg.length % 64) % 64) 0 ++ beBytes8 (msg.length * 8)

/-- Split a byte list into 64-byte chunks (fuel-indexed recursion; the fuel
is the length of the list, ample for the number of chunks). -/
def chunksGo : Nat → List Nat → List (List Nat)
  | 0, _ => []
  | _, [] => []
  | f+1, l => l.take 64 :: chunksGo f (l.drop 64)

/-- SHA-1 of a byte list, as a 20-byte list. -/
def sha1 (msg : List Nat) : List Nat :=
  let padded := sha1Pad msg
  let hs := (chunksGo padded.length padded).foldl sha1Compress
    [1732584193, 4023233417, 2562383102, 271733878, 3285377520]
  hs.foldr (fun w acc => (w >>> 24) % 256 :: (w >>> 16) % 256 :: (w >>> 8) % 256 :: w % 256 :: acc) []

/-- HMAC-SHA1 keyed message authentication code. -/
def hmacSha1 (key msg : List Nat) : List Nat :=
  let k := if key.length > 64 then sha1 key else key
  let k0 := k ++ List.replicate (64 - k.length) 0
  sha1 ((k0.map (fun b => b ^^^ 92)) ++ sha1 ((k0.map (fun b => b ^^^ 54)) ++ msg))

/-- Value of one base32 character; lower case accepted because pyotp decodes
with casefold set. -/
def b32Val (c : Char) : Option Nat :=
  if 65 ≤ c.toNat ∧ c.toNat ≤ 90 then some (c.toNat - 65)
  else if 97 ≤ c.toNat ∧ c.toNat ≤ 122 then some (c.toNat - 97)
  else if 50 ≤ c.toNat ∧ c.toNat ≤ 55 then some (c.toNat - 50 + 26)
  else none

/-- Decode base32 digit values into bytes, dropping leftover bits. -/
def b32Bytes (vals : List Nat) : List Nat :=
  let bits := vals.foldl (fun acc v => acc * 32 + v) 0
  let nbytes := vals.length * 5 / 8
  let shifted := bits >>> (vals.length * 5 - nbytes * 8)
  (List.range nbytes).map (fun i => (shifted >>> ((nbytes - 1 - i) * 8)) % 256)

/-- Base32-decode a secret string (pyotp `byte_secret`); `none` when a
character is outside the base32 alphabet, which pyotp surfaces as a raised
binascii error, i.e. an invalid secret. -/
def base32Decode (s : String) : Option (List Nat) :=
  (s.data.mapM b32Val).map b32Bytes

/-- HOTP with 6 digits (pyotp `generate_otp`): HMAC-SHA1 of the big-endian
counter, then dynamic truncation modulo 10^6. -/
def hotp (key : List Nat) (counter : Nat) : Nat :=
  let hs := hmacSha1 key (beBytes8 counter)
  let offset := hs.getD 19 0 % 16
  ((hs.getD offset 0 % 128) * 16777216 + hs.getD (offset+1) 0 * 65536 +
   hs.getD (offset+2) 0 * 256 + hs.getD (offset+3) 0) % 1000000

/-- Zero-pad a code to 6 decimal digits, as pyotp renders OTP strings. -/
def zpad6 (n : Nat) : String :=
  String.mk (List.replicate (6 - (toString n).length) '0') ++ toString n

/-- The 6-digit OTP string for a key and counter. -/
def hotpStr (key : List Nat) (counter : Nat) : String := zpad6 (hotp key counter)

/-- pyotp `timecode`: Unix time divided into 30-second steps. -/
def timecode (t : Nat) : Nat := t / 30

/-- pyotp `TOTP(secret).at(t)`: the code for the time step containing `t`. -/
def currentCode (secret : String) (t : Nat) : Option String :=
  (base32Decode secret).map (fun key => hotpStr key (timecode t))

/-- pyotp `TOTP(secret).verify(code)` at time `t` exactly as app.py calls it
(line 191, `totp.verify(token)`): the default `valid_window=0` compares the
submitted code against the single code of the step containing `t`. -/
def totpVerify (secret code : String) (t : Nat) : Option Bool :=
  (base32Decode secret).map (fun key => code == hotpStr key (timecode t))

/-- Modelled from the spec words only (section 4.1) for comparison with
`totpVerify`: verification that recomputes the code for the step containing
`t` and also for the immediately preceding and following steps, accepting the
submitted code when it matches any of the three.  (At step 0 the truncated
preceding step repeats step 0.) -/
def specVerify (secret code : String) (t : Nat) : Option Bool :=
  (base32Decode secret).map (fun key =>
    code == hotpStr key (timecode t) ||
    code == hotpStr key (timecode t - 1) ||
    code == hotpStr key (timecode t + 1))

/-! ## JSON documents (the backup file format) -/

/-- A parsed JSON document, the value `json.load` returns on success. -/
inductive Json where
  | str (s : String)
  | num (n : Int)
  | bool (b : Bool)
  | null
  | arr (elems : List Json)
  | obj (fields : List (String × Json))

/-- Lookup in a parsed JSON object; a Python dict keeps the last duplicate
of a key, hence the reversal. -/
def jsonGet (fields : List (String × Json)) (k : String) : Option Json :=
  (fields.reverse.find? (fun p => p.1 == k)).map (fun p => p.2)

/-! ## Data model of app.py (SQLAlchemy rows as records) -/

/-- A row of the User table: username (unique), bcrypt password hash, and
the base32 primary TOTP secret. -/
structure User where
  id : Nat
  username : String
  password : String
  secret : String

/-- A row of the Token table: a service secret owned by `user_id`.  The
`service` and `secret` columns hold whatever value the import path supplies
(SQLite stores non-strings unchecked), so they are JSON values; `add_token`
and `register` always store strings. -/
structure Token where
  id : Nat
  user_id : Nat
  service : Json
  secret : Json

/-- The database: both tables. -/
structure Store where
  users : List User
  tokens : List Token

/-- The cookie-backed session, reduced to the one key the app reads: the
value of `session["username"]` when present.  app.py keeps no other
authentication state, so this is the whole gate. -/
abbrev Session := Option String

/-- Pages the app renders. -/
inductive Page where
  | home
  | loginForm
  | registerForm
  | addTokenForm
  | importForm
  | verifyForm (username : String)
  | qr (username : String)
  | dashboard (username : String) (tokens : List Token)

/-- What a request handler hands back to the web framework: a rendered page,
a translated flash message, a redirect, a JSON file download, or an
exception escaping the handler (which the framework turns into a 500 error
page; in debug mode, a stack trace). -/
inductive Response where
  | render (p : Page)
  | message (m : String)
  | redirect (target : String)
  | file (doc : Json)
  | serverError (exn : String)

/-- Outcome of the speech-output collaborator `read_token` (tts.py /
app.py lines 93-100): the pyttsx3 call either returns or raises. -/
inductive Tts where
  | ok
  | failure

/-! ## Route handlers of app.py as pure state transformers

External collaborators appear as explicit inputs: `hashpw` for
`bcrypt.hashpw` with its salt fixed, `checkpw` for `bcrypt.checkpw`,
`freshSecret` for `pyotp.random_base32()`, `freshId`/`nextId` for the
autoincrement primary key the database assigns at commit, `t` for the
wall-clock time pyotp reads, and `tts` for the speech-engine outcome. -/

/-- POST /register (app.py lines 123-144): reject an existing username with
the translated message, otherwise store the new user and render the QR
page. -/
def register (st : Store) (username password : String)
    (hashpw : String → String) (freshSecret : String) (freshId : Nat) :
    Response × Store :=
  if (st.users.find? (fun u => u.username == username)).isSome then
    (.message "Username already exists", st)
  else
    (.render (.qr username),
     { st with users := st.users ++
        [{ id := freshId, username := username,
           password := hashpw password, secret := freshSecret }] })

/-- POST /login (app.py lines 156-167): on a correct password, store the
username in the session and render the token-verification form; otherwise
answer with the invalid-credentials message and leave the session alone. -/
def login (st : Store) (sess : Session) (username password : String)
    (checkpw : String → String → Bool) : Response × Session :=
  match st.users.find? (fun u => u.username == username) with
  | none => (.message "Invalid username or password", sess)
  | some u =>
    if checkpw password u.password then
      (.render (.verifyForm username), some username)
    else
      (.message "Invalid username or password", sess)

/-- POST /verify (app.py lines 181-196): check the submitted TOTP code with
the default zero tolerance window; on success first call the speech engine
(`read_token`, a blocking call whose exception escapes the handler before
the session is promoted), then store the username in the session and
redirect to the dashboard. -/
def verify (st : Store) (sess : Session) (username token : String)
    (t : Nat) (tts : Tts) : Response × Session :=
  match st.users.find? (fun u => u.username == username) with
  | none => (.message "User not found", sess)
  | some u =>
    match totpVerify u.secret token t with
    | none => (.serverError "binascii.Error in TOTP", sess)
    | some okay =>
      if okay then
        match tts with
        | .failure => (.serverError "pyttsx3 exception in read_token", sess)
        | .ok => (.redirect "dashboard", some username)
      else
        (.message "Invalid token. Please try again.", sess)

/-- GET /dashboard (app.py lines 205-214): redirect to login when the
session has no username; otherwise list the tokens of the session user
(a missing user row would make `user.id` raise). -/
def dashboard (st : Store) (sess : Session) : Response :=
  match sess with
  | none => .redirect "login"
  | some un =>
    match st.users.find? (fun u => u.username == un) with
    | none => .serverError "AttributeError on user"
    | some u => .render (.dashboard un (st.tokens.filter (fun t => t.user_id == u.id)))

/-- POST /add_token (app.py lines 224-237): guarded by session presence;
stores a fresh secret for the named service and redirects. -/
def add_token (st : Store) (sess : Session) (service : String)
    (freshSecret : String) (freshId : Nat) : Response × Store :=
  match sess with
  | none => (.redirect "login", st)
  | some un =>
    match st.users.find? (fun u => u.username == un) with
    | none => (.serverError "AttributeError on user", st)
    | some u =>
      (.redirect "dashboard",
       { st with tokens := st.tokens ++
          [{ id := freshId, user_id := u.id,
             service := .str service, secret := .str freshSecret }] })

/-- GET /delete_token/<token_id> (app.py lines 244-256): guarded by session
presence only; looks the token up by primary key and deletes it when found,
with no ownership comparison, then redirects to the dashboard either way. -/
def delete_token (st : Store) (sess : Session) (token_id : Nat) :
    Response × Store :=
  match sess with
  | none => (.redirect "login", st)
  | some _ =>
    match st.tokens.find? (fun t => t.id == token_id) with
    | none => (.redirect "dashboard", st)
    | some _ =>
      (.redirect "dashboard",
       { st with tokens := st.tokens.eraseP (fun t => t.id == token_id) })

/-- The body of the import loop (app.py lines 274-276), one entry at a
time.  Per entry the code evaluates `user.id` (raising on a missing user),
then subscripts the entry: a non-dict entry raises a TypeError, a dict
without the key raises a KeyError.  An exception discards the rows staged
so far (the request teardown rolls the uncommitted session back). -/
def importLoop (uid : Option Nat) (nid : Nat) :
    List Json → Except String (List Token)
  | [] => .ok []
  | e :: rest =>
    match uid with
    | none => .error "AttributeError on user"
    | some uidv =>
      match e with
      | Json.obj fields =>
        match jsonGet fields "service" with
        | none => .error "KeyError in import loop"
        | some sv =>
          match jsonGet fields "secret" with
          | none => .error "KeyError in import loop"
          | some sc =>
            (importLoop uid (nid+1) rest).map
              (fun ts => { id := nid, user_id := uidv, service := sv, secret := sc } :: ts)
      | _ => .error "TypeError in import loop"

/-- POST /import_token (app.py lines 265-279): guarded by session presence;
`json.load` is modelled by the `doc` argument, `none` when the uploaded
bytes are not valid JSON (the load raises, uncaught).  The code then runs
`data.get("tokens", [])` (an AttributeError unless the document is an
object), iterates (a TypeError unless the value is iterable; iterating a
string or a dict yields strings, so a nonempty one raises a TypeError at
the first subscript while an empty one commits nothing), and commits all
staged rows before redirecting. -/
def import_token (st : Store) (sess : Session) (doc : Option Json)
    (nextId : Nat) : Response × Store :=
  match sess with
  | none => (.redirect "login", st)
  | some un =>
    let userOpt := st.users.find? (fun u => u.username == un)
    match doc with
    | none => (.serverError "json.JSONDecodeError", st)
    | some data =>
      match data with
      | Json.obj fields =>
        match (jsonGet fields "tokens").getD (Json.arr []) with
        | Json.arr entries =>
          match importLoop (userOpt.map (fun u => u.id)) nextId entries with
          | .error e => (.serverError e, st)
          | .ok toks => (.redirect "dashboard", { st with tokens := st.tokens ++ toks })
        | Json.str s =>
          if s.length == 0 then (.redirect "dashboard", st)
          else (.serverError "TypeError in import loop", st)
        | Json.obj fs =>
          if fs.length == 0 then (.redirect "dashboard", st)
          else (.serverError "TypeError in import loop", st)
        | _ => (.serverError "TypeError: value not iterable", st)
      | _ => (.serverError "AttributeError: no attribute get", st)

/-- The JSON document /export_tokens builds (app.py lines 296-298). -/
def exportDoc (toks : List Token) : Json :=
  Json.obj [("tokens",
    Json.arr (toks.map (fun t => Json.obj [("service", t.service), ("secret", t.secret)])))]

/-- GET /export_tokens (app.py lines 290-304): guarded by session presence;
serializes the session user tokens as a JSON attachment. -/
def export_tokens (st : Store) (sess : Session) : Response :=
  match sess with
  | none => .redirect "login"
  | some un =>
    match st.users.find? (fun u => u.username == un) with
    | none => .serverError "AttributeError on user"
    | some u => .file (exportDoc (st.tokens.filter (fun t => t.user_id == u.id)))

/-! ## Startup configuration (config.py and app.py line 11) -/

/-- app.py line 11: the session signing key, with the weak fallback:
`os.getenv("SECRET_KEY", "dev_secret_key")`. -/
def appSecretKey (env : String → Option String) : String :=
  (env "SECRET_KEY").getD "dev_secret_key"

/-- Startup of the application entry point app.py: nothing about the
environment is checked, the module always comes up, with `appSecretKey` as
the signing key.  (app.py imports nothing from config.py.) -/
def appStartup (env : String → Option String) : Except String String :=
  .ok (appSecretKey env)

/-- config.py lines 25-38, the class body of ProductionConfig, run at
module import: raise unless SECRET_KEY and DATABASE_URL are present and
nonempty (Python truthiness), else expose both values. -/
def productionConfigInit (env : String → Option String) :
    Except String (String × String) :=
  let sk := (env "SECRET_KEY").getD ""
  if sk == "" then
    .error "SECRET_KEY environment variable must be set in production"
  else
    let du := (env "DATABASE_URL").getD ""
    if du == "" then
      .error "DATABASE_URL environment variable must be set in production"
    else
      .ok (sk, du)

/-! ## Concrete fixtures for witnesses and counterexamples -/

/-- The RFC 4226 test key, base32 encoded: a valid 32-character secret. -/
def rfcSecret : String := "GEZDGNBVGY3TQOJQGEZDGNBVGY3TQOJQ"

/-- The bytes `rfcSecret` decodes to (the ASCII digits 1..0 twice). -/
def rfcKey : List Nat :=
  [49, 50, 51, 52, 53, 54, 55, 56, 57, 48, 49, 50, 51, 52, 53, 54, 55, 56, 57, 48]

/-- A registered user. -/
def alice : User :=
  { id := 1, username := "alice", password := "hash1", secret := rfcSecret }

/-- A second registered user. -/
def bob : User :=
  { id := 2, username := "bob", password := "hash2", secret := rfcSecret }

/-- A service secret owned by bob. -/
def bobToken : Token :=
  { id := 10, user_id := 2, service := .str "GitHub", secret := .str "JBSWY3DPEHPK3PXP" }

/-- A service secret owned by alice. -/
def aliceToken : Token :=
  { id := 3, user_id := 1, service := .str "GitHub", secret := .str "JBSWY3DPEHPK3PXP" }

/-- A concrete bcrypt model for witnesses: the hash records the password. -/
def demoCheckpw : String → String → Bool :=
  fun password hash => hash == String.append "hash-of-" password

/-- A user whose stored hash matches the password "s3cret" under
`demoCheckpw`. -/
def carol : User :=
  { id := 7, username := "carol", password := "hash-of-s3cret", secret := rfcSecret }

/-- Store with carol only. -/
def storeCarol : Store := { users := [carol], tokens := [] }

/-- Store with alice and bob, and one token owned by bob. -/
def storeCross : Store := { users := [alice, bob], tokens := [bobToken] }

/-- Store with alice owning one token. -/
def storeAlice : Store := { users := [alice], tokens := [aliceToken] }

end TwoFA

namespace TwoFA

/-! ## Helper definitions used by the round-trip theorem -/

/-- The tokens the import loop rebuilds from an exported list: the same
service/secret pairs, re-owned by `uid` and renumbered from `nid`. -/
def reissue (uid : Nat) : Nat → List Token → List Token
  | _, [] => []
  | nid, t :: rest =>
    { id := nid, user_id := uid, service := t.service, secret := t.secret } ::
      reissue uid (nid+1) rest

/-! ## Helper lemmas -/

/-- Running the import loop over the entry list the export encoder builds
succeeds and stages exactly the exported service/secret pairs. -/
theorem importLoop_export (uid : Nat) : ∀ (toks : List Token) (nid : Nat),
    importLoop (some uid) nid
      (toks.map (fun t => Json.obj [("service", t.service), ("secret", t.secret)])) =
      .ok (reissue uid nid toks)
  | [], _ => rfl
  | t :: rest, nid => by
    show (importLoop (some uid) (nid+1)
      (rest.map (fun t => Json.obj [("service", t.service), ("secret", t.secret)]))).map _ = _
    rw [importLoop_export uid rest (nid+1)]
    rfl

/-- Reissued tokens carry the same service/secret pairs, in order. -/
theorem reissue_map_pairs (uid : Nat) : ∀ (toks : List Token) (nid : Nat),
    (reissue uid nid toks).map (fun t => (t.service, t.secret)) =
      toks.map (fun t => (t.service, t.secret))
  | [], _ => rfl
  | t :: rest, nid => by
    show _ :: (reissue uid (nid+1) rest).map (fun t => (t.service, t.secret)) = _
    rw [reissue_map_pairs uid rest (nid+1)]
    rfl

/-! ## Claim theorems -/

/-- C1: the claim says a session that has passed only the password step is
rejected at every protected resource.  In the code, POST /login already
stores the username in the session on a correct password, and /dashboard
admits any session holding that key, so a password-only session (no TOTP
step ever ran) is granted the dashboard instead of being redirected. -/
theorem password_only_session_reaches_dashboard :
    (login storeCarol none "carol" "s3cret" demoCheckpw).1 = .render (.verifyForm "carol") ∧
    (login storeCarol none "carol" "s3cret" demoCheckpw).2 = some "carol" ∧
    dashboard storeCarol (login storeCarol none "carol" "s3cret" demoCheckpw).2 =
      .render (.dashboard "carol" []) :=
  ⟨rfl, rfl, rfl⟩

/-- C2: the claim says deleting a service secret owned by another account is
rejected with NotOwner and the secret stays.  In the code, /delete_token
looks the token up by primary key only: the session user alice deletes the
token owned by bob (a different account), and the store loses it. -/
theorem delete_token_cross_account_deletes :
    delete_token storeCross (some "alice") 10 =
      (.redirect "dashboard", { users := [alice, bob], tokens := [] }) ∧
    bobToken.user_id = bob.id ∧ alice.id ≠ bob.id :=
  ⟨rfl, rfl, by decide⟩

/-- C3 counterexample: with the RFC 4226 key, the code of the step
immediately preceding time 59 is 755224, the spec-worded plus-minus-one
window accepts it at time 59, but the code as written (pyotp default
`valid_window=0`) rejects it. -/
theorem totp_window_counterexample :
    currentCode rfcSecret 29 = some "755224" ∧
    specVerify rfcSecret "755224" 59 = some true ∧
    totpVerify rfcSecret "755224" 59 = some false :=
  ⟨by decide, by decide, by decide⟩

/-- C3 amended: `verify(s, c, t)` recomputes the code only for the time
step containing `t` and returns true exactly when `c` equals that single
recomputed code; adjacent-step codes are rejected when they differ. -/
theorem totpVerify_single_step (s c : String) (t : Nat) (key : List Nat)
    (h : base32Decode s = some key) :
    totpVerify s c t = some true ↔ c = hotpStr key (timecode t) := by
  simp [totpVerify, h]

/-- C3 amended, witness at the RFC key and time 59. -/
theorem totpVerify_single_step_witness :
    totpVerify rfcSecret "287082" 59 = some true :=
  (totpVerify_single_step rfcSecret "287082" 59 rfcKey (by decide)).mpr (by decide)

/-- C4: a logged-in POST to /import_token whose uploaded bytes are not
valid JSON makes `json.load` raise; nothing catches it, so the raw
JSONDecodeError escapes the handler (no structured MalformedBackup
message), while the store is left unchanged. -/
theorem import_invalid_json_uncaught (st : Store) (sess : Session) (un : String)
    (nid : Nat) (h : sess = some un) :
    import_token st sess none nid = (.serverError "json.JSONDecodeError", st) := by
  subst h; rfl

/-- C4 witness at a concrete store and session. -/
theorem import_invalid_json_uncaught_witness :
    import_token storeAlice (some "alice") none 11 =
      (.serverError "json.JSONDecodeError", storeAlice) :=
  import_invalid_json_uncaught storeAlice (some "alice") "alice" 11 rfl

/-- C5: registering a username that is already present (exact string
match) answers with the duplicate-username message and returns the store
unchanged, so the first account and its primary secret survive intact. -/
theorem register_duplicate_unchanged (st : Store) (username password : String)
    (hashpw : String → String) (freshSecret : String) (freshId : Nat) (a : User)
    (h : st.users.find? (fun x => x.username == username) = some a) :
    register st username password hashpw freshSecret freshId =
      (.message "Username already exists", st) := by
  simp [register, h]

/-- C5 witness: carol registered twice. -/
theorem register_duplicate_unchanged_witness :
    register storeCarol "carol" "another-pw" (fun s => s) "NEWSECRET2345678" 9 =
      (.message "Username already exists", storeCarol) :=
  register_duplicate_unchanged storeCarol "carol" "another-pw" (fun s => s)
    "NEWSECRET2345678" 9 carol rfl

/-- C6: exporting the (nonempty) token set of the session user produces the
backup document of the documented shape, and importing that document back
for the same account succeeds and creates service secrets whose
service/secret pairs are exactly the exported ones (equal as lists, hence
as sets). -/
theorem export_import_roundtrip (st : Store) (un : String) (u : User) (nid : Nat)
    (hu : st.users.find? (fun x => x.username == un) = some u)
    (_hne : st.tokens.filter (fun t => t.user_id == u.id) ≠ []) :
    export_tokens st (some un) =
      .file (exportDoc (st.tokens.filter (fun t => t.user_id == u.id))) ∧
    import_token st (some un)
        (some (exportDoc (st.tokens.filter (fun t => t.user_id == u.id)))) nid =
      (.redirect "dashboard",
       { st with tokens := st.tokens ++
          reissue u.id nid (st.tokens.filter (fun t => t.user_id == u.id)) }) ∧
    (reissue u.id nid (st.tokens.filter (fun t => t.user_id == u.id))).map
        (fun t => (t.service, t.secret)) =
      (st.tokens.filter (fun t => t.user_id == u.id)).map (fun t => (t.service, t.secret)) := by
  refine ⟨?_, ?_, reissue_map_pairs u.id _ nid⟩
  · simp [export_tokens, hu]
  · simp [import_token, exportDoc, jsonGet, hu, importLoop_export u.id _ nid]

/-- C6 witness: alice exports her one token and imports the file back. -/
theorem export_import_roundtrip_witness :
    export_tokens storeAlice (some "alice") =
      .file (exportDoc (storeAlice.tokens.filter (fun t => t.user_id == alice.id))) ∧
    import_token storeAlice (some "alice")
        (some (exportDoc (storeAlice.tokens.filter (fun t => t.user_id == alice.id)))) 4 =
      (.redirect "dashboard",
       { storeAlice with
          tokens := storeAlice.tokens ++
            reissue alice.id 4 (storeAlice.tokens.filter (fun t => t.user_id == alice.id)) }) ∧
    (reissue alice.id 4 (storeAlice.tokens.filter (fun t => t.user_id == alice.id))).map
        (fun t => (t.service, t.secret)) =
      (storeAlice.tokens.filter (fun t => t.user_id == alice.id)).map
        (fun t => (t.service, t.secret)) :=
  export_import_roundtrip storeAlice "alice" alice 4 rfl (fun h => List.noConfusion h)

/-- C7: a code generated by `current_code` at time t verifies at that same
time t (same 30-second step, hence inside any tolerance window). -/
theorem verify_code_from_same_time (s c : String) (t : Nat)
    (h : currentCode s t = some c) : totpVerify s c t = some true := by
  cases hd : base32Decode s with
  | none => simp [currentCode, hd] at h
  | some key =>
    simp only [currentCode, hd, Option.map_some] at h
    cases h
    simp [totpVerify, hd]

/-- C7 witness at the RFC key and time 61. -/
theorem verify_code_from_same_time_witness :
    totpVerify rfcSecret "359152" 61 = some true :=
  verify_code_from_same_time rfcSecret "359152" 61 (by decide)

/-- C8: the claim says the speech-output collaborator can never change the
outcome of a verification with a correct code.  In the code, `read_token`
is called between the TOTP check and the session promotion, so with the
same store, request and time, a raised speech-engine exception aborts the
handler (no promotion, a 500 error), while a quiet speech engine yields the
promoted session and the dashboard redirect: the outcome depends on the
collaborator. -/
theorem verify_depends_on_tts :
    verify storeCarol none "carol" "287082" 59 Tts.failure =
      (.serverError "pyttsx3 exception in read_token", none) ∧
    verify storeCarol none "carol" "287082" 59 Tts.ok =
      (.redirect "dashboard", some "carol") :=
  ⟨rfl, rfl⟩

/-- C9 counterexample: with SECRET_KEY absent from the environment, the
application entry point app.py starts anyway with the weak default key,
while the (unused by app.py) ProductionConfig of config.py is what raises. -/
theorem startup_weak_default_counterexample :
    appStartup (fun _ => none) = Except.ok "dev_secret_key" ∧
    productionConfigInit (fun _ => none) =
      Except.error "SECRET_KEY environment variable must be set in production" :=
  ⟨rfl, rfl⟩

/-- C9 amended: when SECRET_KEY is absent, importing config.py with its
ProductionConfig aborts with the ValueError, but the application startup in
app.py, which never consults config.py, comes up with the weak default
signing key dev_secret_key. -/
theorem production_config_aborts_app_does_not (env : String → Option String)
    (h : env "SECRET_KEY" = none) :
    productionConfigInit env =
      Except.error "SECRET_KEY environment variable must be set in production" ∧
    appStartup env = Except.ok "dev_secret_key" := by
  constructor
  · simp [productionConfigInit, h]
  · simp [appStartup, appSecretKey, h]

/-- C9 amended, witness at the empty environment. -/
theorem production_config_aborts_app_does_not_witness :
    productionConfigInit (fun _ => none) =
      Except.error "SECRET_KEY environment variable must be set in production" ∧
    appStartup (fun _ => none) = Except.ok "dev_secret_key" :=
  production_config_aborts_app_does_not (fun _ => none) rfl

/-- C10: with a logged-in session and a token id matching no stored row,
/delete_token completes with the dashboard redirect and the store is
completely unchanged; the missing id is silently ignored. -/
theorem delete_token_missing_id_noop (st : Store) (sess : Session) (un : String)
    (token_id : Nat) (hs : sess = some un)
    (h : st.tokens.find? (fun t => t.id == token_id) = none) :
    delete_token st sess token_id = (.redirect "dashboard", st) := by
  subst hs; simp [delete_token, h]

/-- C10 witness: alice deletes the nonexistent id 99. -/
theorem delete_token_missing_id_noop_witness :
    delete_token storeAlice (some "alice") 99 = (.redirect "dashboard", storeAlice) :=
  delete_token_missing_id_noop storeAlice (some "alice") "alice" 99 rfl rfl

end TwoFA
